import Mathlib

/-!
Verification development for the redep deployment CLI.

The JavaScript sources are embedded shallowly:
* `lib/config.js` (config store): `getConfig`, `setConfig`,
  `validateMandatoryConfig`, `getMissingConfigMessage`, `getClientConfig`.
* `bin/index.js` (CLI): the `start`, `stop`, `status`, `listen`, `deploy`
  and `init` command actions, including the native background supervisor
  `startNativeBackground`.

JavaScript values that flow through the modelled code are represented by
`JVal` (scalars) and `StoredVal` (scalars or the named server-profile map
stored under the `servers` key; the persisted store only ever holds these
shapes through the modelled code paths).  JavaScript objects are modelled
as ordered association lists, matching object insertion-order semantics.
Truthiness follows JavaScript truthiness.  External effects (spawned
processes, log output, socket binds, process.exit) are made explicit as
event traces and result fields on `ActionResult`.
-/

/-- A scalar JavaScript value as it occurs in the modelled code paths. -/
inductive JVal where
  | vUndefined
  | vNull
  | vBool (b : Bool)
  | vStr (s : String)
  | vNum (n : Int)
deriving DecidableEq, Repr

/-- JavaScript truthiness for scalar values. -/
def jvalTruthy : JVal → Bool
  | .vUndefined => false
  | .vNull => false
  | .vBool b => b
  | .vStr s => s ≠ ""
  | .vNum n => n ≠ 0

/-- A named server profile: `{url, secret}`, as written by `init client`. -/
structure ServerProfile where
  url : JVal
  secret : JVal
deriving DecidableEq, Repr

/-- A value held in the persisted config store: either a scalar or the
`servers` map of named profiles (a JavaScript object, modelled as an
ordered association list). -/
inductive StoredVal where
  | scalar (v : JVal)
  | profiles (m : List (String × ServerProfile))
deriving DecidableEq, Repr

/-- JavaScript truthiness for stored values; objects are always truthy. -/
def truthy : StoredVal → Bool
  | .scalar v => jvalTruthy v
  | .profiles _ => true

/-- JavaScript `String(v)` as used by template literals in log messages. -/
def jvalDisplay : JVal → String
  | .vUndefined => "undefined"
  | .vNull => "null"
  | .vBool b => if b then "true" else "false"
  | .vStr s => s
  | .vNum n => toString n

/-- `String(v)` on a stored value. -/
def svDisplay : StoredVal → String
  | .scalar v => jvalDisplay v
  | .profiles _ => "[object Object]"

/-- `a || b` on stored values (JavaScript logical or). -/
def jsOr (a b : StoredVal) : StoredVal :=
  if truthy a then a else b

/-- First-match lookup in an ordered association list (JavaScript
property read `obj[k]`, `none` standing for `undefined`). -/
def lookupAssoc {α : Type} : List (String × α) → String → Option α
  | [], _ => none
  | (k₁, v) :: t, k => if k₁ = k then some v else lookupAssoc t k

/-- Property write `obj[k] = v`: updates the binding in place if present,
otherwise appends it (JavaScript object insertion order). -/
def setAssoc {α : Type} : List (String × α) → String → α → List (String × α)
  | [], k, v => [(k, v)]
  | (k₁, v₁) :: t, k, v =>
      if k₁ = k then (k₁, v) :: t else (k₁, v₁) :: setAssoc t k v

/-- One entry of `CONFIG_SCHEMA` in `lib/config.js`. -/
structure SchemaEntry where
  defaultVal : StoredVal
  env : Option String
  security : String
  description : String
deriving DecidableEq, Repr

/-- `CONFIG_SCHEMA` from `lib/config.js` (field `default` is named
`defaultVal` here; `env: null` is `none`). -/
def CONFIG_SCHEMA : List (String × SchemaEntry) :=
  [ ("server_port", ⟨.scalar (.vNum 3000), some "SERVER_PORT", "low", "Server Port"⟩),
    ("secret_key", ⟨.scalar .vNull, some "SECRET_KEY", "critical", "Authentication Secret"⟩),
    ("working_dir", ⟨.scalar .vNull, some "WORKING_DIR", "medium", "Working Directory"⟩),
    ("deployment_command", ⟨.scalar .vNull, some "DEPLOYMENT_COMMAND", "high", "Deployment Command"⟩),
    ("server_url", ⟨.scalar .vNull, some "SERVER_URL", "low", "Default Server URL"⟩),
    ("servers", ⟨.profiles [], none, "medium", "Server Profiles"⟩),
    ("server_pid", ⟨.scalar .vNull, none, "low", "Server Process ID"⟩) ]

/-- `CONFIG_SCHEMA[key]`. -/
def schemaEntry (k : String) : Option SchemaEntry :=
  lookupAssoc CONFIG_SCHEMA k

/-- The state visible to the config module: the process environment, the
persisted store, and the per-key update timestamps kept under `_meta`. -/
structure ConfigState where
  env : List (String × String)
  store : List (String × StoredVal)
  meta : List (String × String)
deriving DecidableEq, Repr

/-- The environment-override branch of `getConfig`: defined when the key
has a (non-null) `env` name in the schema and that variable is set. -/
def envOverride (st : ConfigState) (k : String) : Option String :=
  match schemaEntry k with
  | some e =>
      match e.env with
      | some n => lookupAssoc st.env n
      | none => none
  | none => none

/-- `getConfig` from `lib/config.js`: environment override first, then the
stored value, then the schema default when the stored value is undefined. -/
def getConfig (st : ConfigState) (k : String) : StoredVal :=
  match envOverride st k with
  | some v => .scalar (.vStr v)
  | none =>
      match lookupAssoc st.store k with
      | some v =>
          if v = .scalar .vUndefined then
            match schemaEntry k with
            | some e => e.defaultVal
            | none => .scalar .vUndefined
          else v
      | none =>
          match schemaEntry k with
          | some e => e.defaultVal
          | none => .scalar .vUndefined

/-- `setConfig` from `lib/config.js`: writes the value and records an
`updatedAt` timestamp under `_meta.key` (kept in a separate map here, as
the nested `_meta` object never collides with schema keys). -/
def setConfig (st : ConfigState) (k : String) (v : StoredVal) (now : String) : ConfigState :=
  { st with store := setAssoc st.store k v, meta := setAssoc st.meta k now }

/-- `validateMandatoryConfig` from `lib/config.js`: collects the names of
the mandatory keys whose resolved value is falsy, in source order. -/
def validateMandatoryConfig (st : ConfigState) : List String :=
  (if truthy (getConfig st "secret_key") then [] else ["secret_key"]) ++
  (if truthy (getConfig st "working_dir") then [] else ["working_dir"]) ++
  (if truthy (getConfig st "deployment_command") then [] else ["deployment_command"])

/-- `Array.prototype.join(sep)`. -/
def joinWith (sep : String) : List String → String
  | [] => ""
  | [x] => x
  | x :: y :: t => x ++ sep ++ joinWith sep (y :: t)

/-- A key name wrapped in single quotes, as the error message renders it. -/
def quoteKey (p : String) : String := "\x27" ++ p ++ "\x27"

/-- One remediation line of the missing-config message. -/
def missingInstruction (p : String) : String :=
  match (schemaEntry p).bind (fun e => e.env) with
  | some envVar =>
      "  - Set " ++ quoteKey p ++ " using \x27redep config set " ++ p ++
        " <value>\x27 or add \x27" ++ envVar ++ "=<value>\x27 to your .env file"
  | none =>
      "  - Set " ++ quoteKey p ++ " using \x27redep config set " ++ p ++ " <value>\x27"

/-- `getMissingConfigMessage` from `lib/config.js` (`none` is `null`). -/
def getMissingConfigMessage (missing : List String) : Option String :=
  if missing = [] then none
  else
    some ("Error: Required configuration parameter(s) " ++
      joinWith ", " (missing.map quoteKey) ++ " are not set.\n" ++
      joinWith "\n" (missing.map missingInstruction))

/-- `getServerDescription` from `lib/config.js`. -/
def getServerDescription (serverName : String) : String :=
  let l := serverName.toLower
  if l = "prod" then "Production environment with high security"
  else if l = "staging" then "Staging environment for testing"
  else if l = "uat" then "User Acceptance Testing environment"
  else if l = "dev" then "Development environment"
  else if l = "test" then "Testing environment"
  else "Custom environment"

/-- `getServerSecurityLevel` from `lib/config.js`; the host of a profile
is a string or absent in every modelled state. -/
def getServerSecurityLevel (host : JVal) : String :=
  if jvalTruthy host = false then "unknown"
  else
    match host with
    | .vStr s =>
        if s.startsWith "https://" then "high"
        else if s.startsWith "http://localhost" then "low"
        else if s.startsWith "http://127.0.0.1" then "low"
        else if s.startsWith "http://" then "medium"
        else "unknown"
    | _ => "unknown"

/-- One row of the `getClientConfig` output. -/
structure ClientRow where
  server : String
  host : JVal
  secret_key : String
  description : String
  security : String
deriving DecidableEq, Repr

/-- The raw stored `servers` map (`config.get` without schema fallback),
as `getClientConfig` reads it; absent stands for `undefined`. -/
def storedServers (st : ConfigState) : List (String × ServerProfile) :=
  match lookupAssoc st.store "servers" with
  | some (.profiles m) => m
  | _ => []

/-- The row `getClientConfig` builds for one named profile. -/
def clientRowOf (p : String × ServerProfile) : ClientRow :=
  { server := p.1,
    host := if jvalTruthy p.2.url then p.2.url else .vStr "Not configured",
    secret_key := if jvalTruthy p.2.secret then "********" else "Not set",
    description := getServerDescription p.1,
    security := getServerSecurityLevel p.2.url }

/-- `getClientConfig` from `lib/config.js`: one masked row per profile. -/
def getClientConfig (st : ConfigState) : List ClientRow :=
  (storedServers st).map clientRowOf

/-! ## The CLI actions of `bin/index.js` -/

/-- The host state a CLI action touches: the config plus the set of live
operating-system process ids. -/
structure World where
  cfg : ConfigState
  live : List Int
deriving DecidableEq, Repr

/-- `process.kill(pid, 0)` succeeds exactly when the recorded value is a
number naming a live process; any other value throws, which every caller
catches and treats as a dead process. -/
def pidLive (v : StoredVal) (live : List Int) : Bool :=
  match v with
  | .scalar (.vNum n) => live.contains n
  | _ => false

/-- Severity of a `logger` call. -/
inductive LogLevel where
  | info
  | warn
  | error
  | success
deriving DecidableEq, Repr

/-- One emitted log line. -/
structure LogMsg where
  level : LogLevel
  msg : String
deriving DecidableEq, Repr

/-- Externally observable side effects of one CLI action, in order. -/
inductive Event where
  | pm2Attempt
  | spawnDetached (pid : Int) (args : List String)
  | configWrite (key : String) (v : StoredVal)
  | bindServer (port secret workingDir deployCmd : StoredVal)
  | triggerAttempt (url secret : StoredVal)
deriving DecidableEq, Repr

/-- Result of running one CLI action: the final state, whether
`process.exit` was called (and with what code), the log lines, and the
side-effect trace. -/
structure ActionResult where
  world : World
  exitCode : Option Nat
  logs : List LogMsg
  events : List Event
deriving DecidableEq, Repr

/-- The argument vector the native fallback passes to the detached child. -/
def listenArgs (optPort : Option String) : List String :=
  "listen" :: (match optPort with | some p => ["--port", p] | none => [])

/-- `startNativeBackground` from `bin/index.js`: probe a recorded pid with
signal 0; refuse when alive, clear stale state when dead, then spawn one
detached `listen` child and persist its pid. -/
def startNativeBackground (w : World) (optPort : Option String) (childPid : Int)
    (now : String) : ActionResult :=
  let existingPid := getConfig w.cfg "server_pid"
  if truthy existingPid then
    if pidLive existingPid w.live then
      { world := w, exitCode := none,
        logs := [⟨.warn, "Server is already running with PID " ++ svDisplay existingPid⟩],
        events := [] }
    else
      let cfg1 := setConfig w.cfg "server_pid" (.scalar .vNull) now
      let cfg2 := setConfig cfg1 "server_pid" (.scalar (.vNum childPid)) now
      { world := { cfg := cfg2, live := childPid :: w.live }, exitCode := none,
        logs := [⟨.success, "Server started in background (native) with PID " ++ toString childPid⟩],
        events := [.configWrite "server_pid" (.scalar .vNull),
                   .spawnDetached childPid (listenArgs optPort),
                   .configWrite "server_pid" (.scalar (.vNum childPid))] }
  else
    let cfg2 := setConfig w.cfg "server_pid" (.scalar (.vNum childPid)) now
    { world := { cfg := cfg2, live := childPid :: w.live }, exitCode := none,
      logs := [⟨.success, "Server started in background (native) with PID " ++ toString childPid⟩],
      events := [.spawnDetached childPid (listenArgs optPort),
                 .configWrite "server_pid" (.scalar (.vNum childPid))] }

/-- Outcome of the `pm2 start` subprocess: the `error` event (manager not
found), or the `close` event with an exit code. -/
inductive Pm2Spawn where
  | errorEvent
  | closed (code : Int)
deriving DecidableEq, Repr

/-- The `start` command action from `bin/index.js`: validate mandatory
config, try PM2, fall back to the native background path on failure. -/
def startAction (w : World) (optPort : Option String) (pm2 : Pm2Spawn)
    (childPid : Int) (now : String) : ActionResult :=
  let missing := validateMandatoryConfig w.cfg
  if missing.isEmpty then
    match pm2 with
    | .errorEvent =>
        let r := startNativeBackground w optPort childPid now
        { r with
          logs := ⟨.info, "PM2 not found, falling back to native background process..."⟩ :: r.logs,
          events := .pm2Attempt :: r.events }
    | .closed code =>
        if code = 0 then
          { world := w, exitCode := none,
            logs := [⟨.success, "Server started in background using PM2"⟩],
            events := [.pm2Attempt] }
        else
          let r := startNativeBackground w optPort childPid now
          { r with
            logs := ⟨.warn, "PM2 start failed, falling back to native background process..."⟩ :: r.logs,
            events := .pm2Attempt :: r.events }
  else
    { world := w, exitCode := some 1,
      logs := [⟨.error, (getMissingConfigMessage missing).getD ""⟩],
      events := [] }

/-- The `status` command action from `bin/index.js`: `pm2 describe` first
(`pm2code` is its exit code); on a non-zero code, fall back to the native
liveness probe, clearing a stale recorded pid. -/
def statusAction (w : World) (pm2code : Int) (now : String) : ActionResult :=
  if pm2code = 0 then
    { world := w, exitCode := none, logs := [], events := [.pm2Attempt] }
  else
    let pid := getConfig w.cfg "server_pid"
    if truthy pid then
      if pidLive pid w.live then
        { world := w, exitCode := none,
          logs := [⟨.success, "Server is RUNNING (PID " ++ svDisplay pid ++ ")"⟩],
          events := [.pm2Attempt] }
      else
        { world := { w with cfg := setConfig w.cfg "server_pid" (.scalar .vNull) now },
          exitCode := none,
          logs := [⟨.warn, "Server is NOT running (Stale PID " ++ svDisplay pid ++ " found)."⟩],
          events := [.pm2Attempt, .configWrite "server_pid" (.scalar .vNull)] }
    else
      { world := w, exitCode := none,
        logs := [⟨.info, "Server is NOT running."⟩], events := [.pm2Attempt] }

/-- The message of the TypeError thrown by `process.kill` on a
non-numeric pid (its `code` is not `ESRCH`). -/
def killTypeErrMessage : String := "The pid argument must be of type number."

/-- The `stop` command action from `bin/index.js`: `pm2 stop` first; on a
non-zero code, signal the recorded native pid, clearing the persisted pid
on success and on an ESRCH failure. -/
def stopAction (w : World) (pm2code : Int) (now : String) : ActionResult :=
  if pm2code = 0 then
    { world := w, exitCode := none,
      logs := [⟨.success, "Server stopped (PM2)"⟩], events := [.pm2Attempt] }
  else
    let pid := getConfig w.cfg "server_pid"
    if truthy pid then
      match pid with
      | .scalar (.vNum n) =>
          if w.live.contains n then
            { world := { cfg := setConfig w.cfg "server_pid" (.scalar .vNull) now,
                         live := w.live.erase n },
              exitCode := none,
              logs := [⟨.success, "Server stopped (PID " ++ toString n ++ ")"⟩],
              events := [.pm2Attempt, .configWrite "server_pid" (.scalar .vNull)] }
          else
            { world := { w with cfg := setConfig w.cfg "server_pid" (.scalar .vNull) now },
              exitCode := none,
              logs := [⟨.warn, "Process " ++ toString n ++ " not found. Cleaning up config."⟩],
              events := [.pm2Attempt, .configWrite "server_pid" (.scalar .vNull)] }
      | _ =>
          { world := w, exitCode := none,
            logs := [⟨.error, "Failed to stop server: " ++ killTypeErrMessage⟩],
            events := [.pm2Attempt] }
    else
      { world := w, exitCode := none,
        logs := [⟨.warn, "No active server found."⟩], events := [.pm2Attempt] }

/-- An environment variable read `process.env[n]` as a JavaScript value. -/
def envJ (st : ConfigState) (n : String) : StoredVal :=
  match lookupAssoc st.env n with
  | some s => .scalar (.vStr s)
  | none => .scalar .vUndefined

/-- A commander option value (`options.port`) as a JavaScript value. -/
def optJ (o : Option String) : StoredVal :=
  match o with
  | some s => .scalar (.vStr s)
  | none => .scalar .vUndefined

/-- The `listen` command action from `bin/index.js`: validate mandatory
config, then resolve port, secret, working dir and command, and hand them
to `startServer` (the bind, recorded as an event). -/
def listenAction (w : World) (optPort : Option String) : ActionResult :=
  let missing := validateMandatoryConfig w.cfg
  if missing.isEmpty then
    let port := jsOr (optJ optPort) (jsOr (getConfig w.cfg "server_port")
      (jsOr (envJ w.cfg "SERVER_PORT") (.scalar (.vNum 3000))))
    let secret := jsOr (getConfig w.cfg "secret_key") (envJ w.cfg "SECRET_KEY")
    let workingDir := jsOr (getConfig w.cfg "working_dir") (envJ w.cfg "WORKING_DIR")
    let deployCmd := jsOr (getConfig w.cfg "deployment_command") (envJ w.cfg "DEPLOYMENT_COMMAND")
    { world := w, exitCode := none, logs := [],
      events := [.bindServer port secret workingDir deployCmd] }
  else
    { world := w, exitCode := some 1,
      logs := [⟨.error, (getMissingConfigMessage missing).getD ""⟩],
      events := [] }

/-- Profile lookup `servers[serverName]` on the resolved `servers` value. -/
def lookupProfiles (v : StoredVal) (name : String) : Option ServerProfile :=
  match v with
  | .profiles m => lookupAssoc m name
  | .scalar _ => none

/-- The target url the `deploy` action resolves: the named profile if
present, otherwise the global `server_url` (with environment fallback). -/
def deployUrl (st : ConfigState) (name : String) : StoredVal :=
  match lookupProfiles (jsOr (getConfig st "servers") (.profiles [])) name with
  | some p => .scalar p.url
  | none => jsOr (getConfig st "server_url") (envJ st "SERVER_URL")

/-- The secret the `deploy` action resolves, same shape as `deployUrl`. -/
def deploySecret (st : ConfigState) (name : String) : StoredVal :=
  match lookupProfiles (jsOr (getConfig st "servers") (.profiles [])) name with
  | some p => .scalar p.secret
  | none => jsOr (getConfig st "secret_key") (envJ st "SECRET_KEY")

/-- The `deploy <serverName>` command action from `bin/index.js`:
profile-or-global resolution, two fail-fast checks, then the trigger
(whose outcome is the `trig` argument). -/
def deployAction (w : World) (name : String) (trig : Except String Unit) : ActionResult :=
  let serverUrl := deployUrl w.cfg name
  let secret := deploySecret w.cfg name
  if truthy serverUrl = false then
    { world := w, exitCode := some 1,
      logs := [⟨.error, "Error: Server \"" ++ name ++
                  "\" not found in config, and global \"server_url\" is not set."⟩,
               ⟨.info, "Run \"redep init client\" to configure a server."⟩],
      events := [] }
  else if truthy secret = false then
    { world := w, exitCode := some 1,
      logs := [⟨.error, "Error: \"secret_key\" is not set. Set SECRET_KEY env var or run \"redep config set secret_key <your-secret>\""⟩],
      events := [] }
  else
    match trig with
    | .ok _ =>
        { world := w, exitCode := none, logs := [],
          events := [.triggerAttempt serverUrl secret] }
    | .error m =>
        { world := w, exitCode := some 1,
          logs := [⟨.error, "Deploy failed: " ++ m⟩],
          events := [.triggerAttempt serverUrl secret] }

/-- Prompt answers of `init client` (inquirer validators guarantee the
three inputs are non-empty, which is not assumed here). -/
structure ClientAnswers where
  server_name : String
  server_url : String
  secret_key : String
deriving DecidableEq, Repr

/-- Prompt answers of `init server`; `deployment_command` and
`secret_key` may be empty (the latter triggers generation). -/
structure ServerAnswers where
  server_port : String
  working_dir : String
  deployment_command : String
  secret_key : String
deriving DecidableEq, Repr

/-- The stored profiles resolved by `getConfig("servers") || {}`, as the
`init client` branch reads them. -/
def resolvedProfiles (st : ConfigState) : List (String × ServerProfile) :=
  match jsOr (getConfig st "servers") (.profiles []) with
  | .profiles m => m
  | .scalar _ => []

/-- The `init <type>` command action from `bin/index.js`.  The prompt
results arrive as `Except` values (an `error` is a prompt failure caught
by the surrounding try block); only the branch matching `ty` consults its
prompt.  `generated` is the token `generateSecureToken` would produce. -/
def initAction (w : World) (ty : String) (clientAns : Except String ClientAnswers)
    (serverAns : Except String ServerAnswers) (generated : String) (now : String) :
    ActionResult :=
  if ty ≠ "client" ∧ ty ≠ "server" then
    { world := w, exitCode := some 1,
      logs := [⟨.error, "Type must be either \"client\" or \"server\""⟩],
      events := [] }
  else if ty = "client" then
    match clientAns with
    | .error m =>
        { world := w, exitCode := some 1,
          logs := [⟨.error, "Initialization failed: " ++ m⟩], events := [] }
    | .ok a =>
        let servers := setAssoc (resolvedProfiles w.cfg) a.server_name
          ⟨.vStr a.server_url, .vStr a.secret_key⟩
        { world := { w with cfg := setConfig w.cfg "servers" (.profiles servers) now },
          exitCode := none,
          logs := [⟨.success, "Client configuration for \x27" ++ a.server_name ++
                      "\x27 saved successfully."⟩],
          events := [.configWrite "servers" (.profiles servers)] }
  else
    match serverAns with
    | .error m =>
        { world := w, exitCode := some 1,
          logs := [⟨.error, "Initialization failed: " ++ m⟩], events := [] }
    | .ok a =>
        let secret := if a.secret_key = "" then generated else a.secret_key
        let cfg1 := setConfig w.cfg "server_port" (.scalar (.vStr a.server_port)) now
        let cfg2 := setConfig cfg1 "working_dir" (.scalar (.vStr a.working_dir)) now
        let cfg3 := if a.deployment_command ≠ "" then
            setConfig cfg2 "deployment_command" (.scalar (.vStr a.deployment_command)) now
          else cfg2
        let cfg4 := setConfig cfg3 "secret_key" (.scalar (.vStr secret)) now
        { world := { w with cfg := cfg4 }, exitCode := none,
          logs := (if a.secret_key = "" then
              [⟨.info, "Generated Secret Key: " ++ generated⟩] else []) ++
            [⟨.success, "Server configuration saved successfully."⟩],
          events := [.configWrite "server_port" (.scalar (.vStr a.server_port)),
                     .configWrite "working_dir" (.scalar (.vStr a.working_dir))] ++
            (if a.deployment_command ≠ "" then
              [.configWrite "deployment_command" (.scalar (.vStr a.deployment_command))]
             else []) ++
            [.configWrite "secret_key" (.scalar (.vStr secret))] }

/-! ## Trigger protocol (modelled from the spec)

The Trigger Protocol implementation (`lib/server/index.js`,
`lib/client/index.js`) is not among the available sources; the following
definitions are modelled from the specification instead. -/

/-- Modelled from the spec: the trigger message
`{requestId, issuedAt, authProof}` of a `deploy` invocation; the code of
`lib/client/index.js` that builds it is not under the available sources. -/
structure DeploymentRequest where
  requestId : String
  issuedAt : String
  authProof : String
deriving DecidableEq, Repr

/-- Modelled from the spec: the proof derivation, a deterministic value
computed from the shared secret and the request metadata.  The concrete
signing primitive of the missing source is idealized as a collision-free
tagged encoding (symbolic stand-in for a keyed hash). -/
def deriveProof (secret requestId issuedAt : String) : String :=
  requestId ++ ":" ++ issuedAt ++ ":" ++ secret

/-- Modelled from the spec: the request a client holding `secret` sends. -/
def mkRequest (secret requestId issuedAt : String) : DeploymentRequest :=
  ⟨requestId, issuedAt, deriveProof secret requestId issuedAt⟩

instance {α β : Type} [DecidableEq α] [DecidableEq β] : DecidableEq (Except α β) :=
  fun x y =>
    match x, y with
    | .ok a, .ok b =>
        if h : a = b then .isTrue (by rw [h]) else .isFalse (by simp [h])
    | .error a, .error b =>
        if h : a = b then .isTrue (by rw [h]) else .isFalse (by simp [h])
    | .ok _, .error _ => .isFalse (by simp)
    | .error _, .ok _ => .isFalse (by simp)

/-- Observable outcome of the server handling one inbound request: how
often the Command Executor ran, and the response sent back. -/
structure ServeOutcome where
  executorRuns : Nat
  response : Except String String
deriving DecidableEq, Repr

/-- Modelled from the spec: the server-side handler verifies the inbound
proof against its own configured secret before any other action; only on
success does it invoke the Command Executor (whose result is
`execResult`), otherwise it rejects with `AuthError`. -/
def handleTrigger (serverSecret : String) (req : DeploymentRequest)
    (execResult : String) : ServeOutcome :=
  if req.authProof = deriveProof serverSecret req.requestId req.issuedAt then
    { executorRuns := 1, response := .ok execResult }
  else
    { executorRuns := 0, response := .error "AuthError" }

/-! ## Helper lemmas -/

theorem lookupAssoc_setAssoc_self {α : Type} (l : List (String × α)) (k : String) (v : α) :
    lookupAssoc (setAssoc l k v) k = some v := by
  induction l with
  | nil => simp [setAssoc, lookupAssoc]
  | cons h t ih =>
      obtain ⟨k₁, v₁⟩ := h
      by_cases hk : k₁ = k
      · simp [setAssoc, hk, lookupAssoc]
      · simp [setAssoc, hk, lookupAssoc, ih]

theorem envOverride_setConfig (st : ConfigState) (k k' : String) (v : StoredVal)
    (now : String) : envOverride (setConfig st k v now) k' = envOverride st k' := rfl

/-! ## C4: config resolution order -/

/-- C4: for every schema key, a set environment variable wins over any
stored value; otherwise `setConfig` followed by `getConfig` round-trips;
and with neither an environment value nor a stored value, `getConfig`
returns the schema default. -/
theorem c4_config_resolution (st : ConfigState) (k : String) :
    (∀ e v, (schemaEntry k).bind (fun s => s.env) = some e →
        lookupAssoc st.env e = some v →
        getConfig st k = .scalar (.vStr v)) ∧
    (∀ v now, envOverride st k = none → v ≠ .scalar .vUndefined →
        getConfig (setConfig st k v now) k = v) ∧
    (∀ ent, envOverride st k = none → lookupAssoc st.store k = none →
        schemaEntry k = some ent →
        getConfig st k = ent.defaultVal) := by
  refine ⟨?_, ?_, ?_⟩
  · intro e v he hv
    obtain ⟨s, hs, hse⟩ := Option.bind_eq_some.mp he
    have henv : envOverride st k = some v := by
      simp [envOverride, hs, hse, hv]
    simp [getConfig, henv]
  · intro v now henv hv
    have henv2 : envOverride ⟨st.env, setAssoc st.store k v, setAssoc st.meta k now⟩ k = none := henv
    simp [getConfig, setConfig, henv2, lookupAssoc_setAssoc_self, hv]
  · intro ent henv hst hent
    simp [getConfig, henv, hst, hent]

/-- Witness for C4 at a concrete state: environment override for
`secret_key`, set/get round-trip for `working_dir`, schema default for
`deployment_command`. -/
theorem c4_config_resolution_witness :
    getConfig ⟨[("SECRET_KEY", "envv")], [("secret_key", .scalar (.vStr "stored"))], []⟩
        "secret_key" = .scalar (.vStr "envv") ∧
    getConfig (setConfig ⟨[("SECRET_KEY", "envv")], [], []⟩ "working_dir"
        (.scalar (.vStr "/x")) "t") "working_dir" = .scalar (.vStr "/x") ∧
    getConfig ⟨[("SECRET_KEY", "envv")], [], []⟩ "deployment_command" = .scalar .vNull :=
  ⟨(c4_config_resolution _ "secret_key").1 "SECRET_KEY" "envv" (by decide) (by decide),
   (c4_config_resolution _ "working_dir").2.1 _ "t" (by decide) (by decide),
   (c4_config_resolution _ "deployment_command").2.2
     ⟨.scalar .vNull, some "DEPLOYMENT_COMMAND", "high", "Deployment Command"⟩
     (by decide) (by decide) (by decide)⟩

theorem string_append_left_cancel {a b c : String} (h : a ++ b = a ++ c) : b = c := by
  have h2 := congrArg String.data h
  simp only [String.data_append] at h2
  exact String.ext (List.append_cancel_left h2)

theorem deriveProof_inj {s s' rid t : String}
    (h : deriveProof s rid t = deriveProof s' rid t) : s = s' := by
  unfold deriveProof at h
  exact string_append_left_cancel h

/-! ## C2: authentication gates the Command Executor -/

/-- C2: a request whose proof derives from the configured secret is
accepted and runs the Command Executor exactly once; a request whose
proof derives from any other secret is rejected with `AuthError` and the
Command Executor never runs. -/
theorem c2_auth_gates_executor (S Sp rid t res : String) :
    handleTrigger S (mkRequest S rid t) res = ⟨1, .ok res⟩ ∧
    (Sp ≠ S → handleTrigger S (mkRequest Sp rid t) res = ⟨0, .error "AuthError"⟩) := by
  constructor
  · simp [handleTrigger, mkRequest]
  · intro hne
    have hproof : deriveProof Sp rid t ≠ deriveProof S rid t := fun h =>
      hne (deriveProof_inj h)
    simp [handleTrigger, mkRequest, hproof]

/-- Witness for C2 at concrete secrets: the matching secret verifies, a
different secret is rejected without reaching the executor. -/
theorem c2_auth_gates_executor_witness :
    handleTrigger "s1" (mkRequest "s1" "r" "t0") "out" = ⟨1, .ok "out"⟩ ∧
    handleTrigger "s1" (mkRequest "s2" "r" "t0") "out" = ⟨0, .error "AuthError"⟩ :=
  ⟨(c2_auth_gates_executor "s1" "s2" "r" "t0" "out").1,
   (c2_auth_gates_executor "s1" "s2" "r" "t0" "out").2 (by decide)⟩

/-! ## C3: missing mandatory config fails fast and names every key -/

/-- `needle` occurs as a contiguous substring of `hay`. -/
def strHas (hay needle : String) : Prop := needle.data <:+: hay.data

theorem strHas_appendl (x m : String) {n : String} (h : strHas m n) :
    strHas (x ++ m) n := by
  unfold strHas at *
  rw [String.data_append]
  exact h.trans (List.suffix_append x.data m.data).isInfix

theorem strHas_appendr (m y : String) {n : String} (h : strHas m n) :
    strHas (m ++ y) n := by
  unfold strHas at *
  rw [String.data_append]
  exact h.trans (List.prefix_append m.data y.data).isInfix

theorem strHas_quoteKey (k : String) : strHas (quoteKey k) k :=
  strHas_appendr _ _ (strHas_appendl _ _ (List.infix_rfl (l := k.data)))

theorem strHas_joinWith {sep : String} {l : List String} {x : String} (hx : x ∈ l) :
    strHas (joinWith sep l) x := by
  induction l with
  | nil => cases hx
  | cons y t ih =>
      cases t with
      | nil =>
          have hxy : x = y := by simpa using hx
          subst hxy
          simp only [joinWith]
          exact List.infix_rfl
      | cons z zs =>
          rcases List.mem_cons.mp hx with rfl | hmem
          · simp only [joinWith]
            exact strHas_appendr _ _ (strHas_appendr _ _ List.infix_rfl)
          · simp only [joinWith]
            exact strHas_appendl _ _ (ih hmem)

theorem getMissingConfigMessage_names_all {missing : List String} (h : missing ≠ []) :
    ∃ msg, getMissingConfigMessage missing = some msg ∧ ∀ k ∈ missing, strHas msg k := by
  refine ⟨"Error: Required configuration parameter(s) " ++
      joinWith ", " (missing.map quoteKey) ++ " are not set.\n" ++
      joinWith "\n" (missing.map missingInstruction), ?_, ?_⟩
  · simp [getMissingConfigMessage, h]
  · intro k hk
    exact strHas_appendr _ _ (strHas_appendr _ _ (strHas_appendl _ _
      ((strHas_quoteKey k).trans (strHas_joinWith (List.mem_map_of_mem quoteKey hk)))))

/-- C3: when any of `secret_key`, `working_dir`, `deployment_command`
resolves to a falsy value, both `start` and `listen` exit with code 1
before any spawn or bind (empty event trace, unchanged state), and the
single error message names every missing key. -/
theorem c3_missing_config_fail_fast (w : World) (optPort : Option String)
    (pm2 : Pm2Spawn) (childPid : Int) (now : String)
    (h : truthy (getConfig w.cfg "secret_key") = false ∨
         truthy (getConfig w.cfg "working_dir") = false ∨
         truthy (getConfig w.cfg "deployment_command") = false) :
    validateMandatoryConfig w.cfg ≠ [] ∧
    ∃ msg, getMissingConfigMessage (validateMandatoryConfig w.cfg) = some msg ∧
      startAction w optPort pm2 childPid now = ⟨w, some 1, [⟨.error, msg⟩], []⟩ ∧
      listenAction w optPort = ⟨w, some 1, [⟨.error, msg⟩], []⟩ ∧
      ∀ k ∈ validateMandatoryConfig w.cfg, strHas msg k := by
  have hne : validateMandatoryConfig w.cfg ≠ [] := by
    rcases h with h | h | h <;> simp [validateMandatoryConfig, h]
  have hem : (validateMandatoryConfig w.cfg).isEmpty = false := by
    cases hval : validateMandatoryConfig w.cfg with
    | nil => exact absurd hval hne
    | cons a t => simp
  obtain ⟨msg, hmsg, hnames⟩ := getMissingConfigMessage_names_all hne
  refine ⟨hne, msg, hmsg, ?_, ?_, hnames⟩
  · simp [startAction, hem, hmsg]
  · simp [listenAction, hem, hmsg]

/-- Witness for C3 at the empty configuration: all three keys are
missing, `start` and `listen` exit 1, and the message names each key. -/
theorem c3_missing_config_fail_fast_witness :
    truthy (getConfig (⟨⟨[], [], []⟩, []⟩ : World).cfg "secret_key") = false ∧
    (validateMandatoryConfig (⟨⟨[], [], []⟩, []⟩ : World).cfg ≠ [] ∧
      ∃ msg, getMissingConfigMessage
          (validateMandatoryConfig (⟨⟨[], [], []⟩, []⟩ : World).cfg) = some msg ∧
        startAction ⟨⟨[], [], []⟩, []⟩ none .errorEvent 7 "t" =
          ⟨⟨⟨[], [], []⟩, []⟩, some 1, [⟨.error, msg⟩], []⟩ ∧
        listenAction ⟨⟨[], [], []⟩, []⟩ none =
          ⟨⟨⟨[], [], []⟩, []⟩, some 1, [⟨.error, msg⟩], []⟩ ∧
        ∀ k ∈ validateMandatoryConfig (⟨⟨[], [], []⟩, []⟩ : World).cfg, strHas msg k) :=
  ⟨by decide,
   c3_missing_config_fail_fast ⟨⟨[], [], []⟩, []⟩ none .errorEvent 7 "t" (Or.inl (by decide))⟩

/-! ## C1: native background start keeps a single instance -/

theorem getConfig_setConfig_of_envNone {st : ConfigState} {k : String} (v : StoredVal)
    (now : String) (henv : envOverride st k = none) (hv : v ≠ .scalar .vUndefined) :
    getConfig (setConfig st k v now) k = v := by
  have henv2 : envOverride ⟨st.env, setAssoc st.store k v, setAssoc st.meta k now⟩ k = none := henv
  simp [getConfig, setConfig, henv2, lookupAssoc_setAssoc_self, hv]

theorem envOverride_server_pid (st : ConfigState) : envOverride st "server_pid" = none := rfl

/-- C1: when a `server_pid` is recorded, the native start path refuses to
spawn while that pid is alive (reporting it, touching nothing); when the
pid is dead it first clears the stale record, spawns exactly one detached
child and persists its pid; and a second native start right after a
successful one refuses, so at most one self-managed server is live. -/
theorem c1_native_start_single_instance (w : World) (optPort optPort2 : Option String)
    (childPid childPid2 : Int) (now now2 : String)
    (hrec : truthy (getConfig w.cfg "server_pid") = true) (hcp : 0 < childPid) :
    (pidLive (getConfig w.cfg "server_pid") w.live = true →
        startNativeBackground w optPort childPid now =
          ⟨w, none, [⟨.warn, "Server is already running with PID " ++
              svDisplay (getConfig w.cfg "server_pid")⟩], []⟩) ∧
    (pidLive (getConfig w.cfg "server_pid") w.live = false →
        (startNativeBackground w optPort childPid now).events =
          [.configWrite "server_pid" (.scalar .vNull),
           .spawnDetached childPid (listenArgs optPort),
           .configWrite "server_pid" (.scalar (.vNum childPid))] ∧
        getConfig (startNativeBackground w optPort childPid now).world.cfg "server_pid" =
          .scalar (.vNum childPid) ∧
        (startNativeBackground w optPort childPid now).world.live = childPid :: w.live ∧
        startNativeBackground (startNativeBackground w optPort childPid now).world
            optPort2 childPid2 now2 =
          ⟨(startNativeBackground w optPort childPid now).world, none,
           [⟨.warn, "Server is already running with PID " ++ toString childPid⟩], []⟩) := by
  have hget : ∀ (st : ConfigState) (nw : String),
      getConfig (setConfig st "server_pid" (.scalar (.vNum childPid)) nw) "server_pid" =
        .scalar (.vNum childPid) :=
    fun st nw => getConfig_setConfig_of_envNone _ _ (envOverride_server_pid st) (by simp)
  have hne : childPid ≠ 0 := by omega
  constructor
  · intro hl
    simp [startNativeBackground, hrec, hl]
  · intro hl
    refine ⟨?_, ?_, ?_, ?_⟩
    · simp [startNativeBackground, hrec, hl]
    · simp [startNativeBackground, hrec, hl, hget]
    · simp [startNativeBackground, hrec, hl]
    · have hworld : (startNativeBackground w optPort childPid now).world =
          ⟨setConfig (setConfig w.cfg "server_pid" (.scalar .vNull) now) "server_pid"
            (.scalar (.vNum childPid)) now, childPid :: w.live⟩ := by
        simp [startNativeBackground, hrec, hl]
      rw [hworld]
      have hrec2 : getConfig (setConfig (setConfig w.cfg "server_pid" (.scalar .vNull) now)
          "server_pid" (.scalar (.vNum childPid)) now) "server_pid" =
            .scalar (.vNum childPid) := hget _ _
      simp [startNativeBackground, hrec2, truthy, jvalTruthy, hne, pidLive, svDisplay, jvalDisplay]

/-- A concrete world for the C1 witness: a stale recorded pid 5 with no
live process. -/
def c1World : World := ⟨⟨[], [("server_pid", .scalar (.vNum 5))], []⟩, []⟩

/-- Witness for C1: with stale pid 5 recorded, a native start clears it,
spawns pid 7 and persists it, and a second native start then refuses. -/
theorem c1_native_start_single_instance_witness :
    truthy (getConfig c1World.cfg "server_pid") = true ∧ (0 : Int) < 7 ∧
    (startNativeBackground c1World none 7 "t").events =
      [.configWrite "server_pid" (.scalar .vNull),
       .spawnDetached 7 (listenArgs none),
       .configWrite "server_pid" (.scalar (.vNum 7))] ∧
    getConfig (startNativeBackground c1World none 7 "t").world.cfg "server_pid" =
      .scalar (.vNum 7) ∧
    (startNativeBackground c1World none 7 "t").world.live = 7 :: c1World.live ∧
    startNativeBackground (startNativeBackground c1World none 7 "t").world none 9 "t2" =
      ⟨(startNativeBackground c1World none 7 "t").world, none,
       [⟨.warn, "Server is already running with PID " ++ toString (7 : Int)⟩], []⟩ :=
  ⟨by decide, by decide,
   (c1_native_start_single_instance c1World none none 7 9 "t" "t2"
     (by decide) (by decide)).2 (by decide)⟩

/-! ## C5: PM2 attempted first, native fallback on error or non-zero exit -/

theorem startNativeBackground_no_error_log (w : World) (optPort : Option String)
    (childPid : Int) (now : String) :
    ∀ l ∈ (startNativeBackground w optPort childPid now).logs, l.level ≠ .error := by
  by_cases h1 : truthy (getConfig w.cfg "server_pid") <;>
    by_cases h2 : pidLive (getConfig w.cfg "server_pid") w.live <;>
      simp [startNativeBackground, h1, h2]

/-- The `start` action announced the native fallback (the two possible
announcement lines of the source). -/
def pm2FallbackLogged (r : ActionResult) : Prop :=
  (⟨.info, "PM2 not found, falling back to native background process..."⟩ : LogMsg) ∈ r.logs ∨
  (⟨.warn, "PM2 start failed, falling back to native background process..."⟩ : LogMsg) ∈ r.logs

/-- C5: with valid mandatory config, `start` always attempts PM2 first;
it announces the native fallback exactly when the PM2 subprocess errors
or exits non-zero; and no branch logs at error level or exits non-zero. -/
theorem c5_pm2_first_native_fallback (w : World) (optPort : Option String)
    (pm2 : Pm2Spawn) (childPid : Int) (now : String)
    (hv : validateMandatoryConfig w.cfg = []) :
    (startAction w optPort pm2 childPid now).events.head? = some .pm2Attempt ∧
    (pm2FallbackLogged (startAction w optPort pm2 childPid now) ↔
      (pm2 = .errorEvent ∨ ∃ c, pm2 = .closed c ∧ c ≠ 0)) ∧
    (∀ l ∈ (startAction w optPort pm2 childPid now).logs, l.level ≠ .error) ∧
    (startAction w optPort pm2 childPid now).exitCode = none := by
  have hem : (validateMandatoryConfig w.cfg).isEmpty = true := by simp [hv]
  have hno := startNativeBackground_no_error_log w optPort childPid now
  cases pm2 with
  | errorEvent =>
      refine ⟨?_, ?_, ?_, ?_⟩
      · simp [startAction, hem]
      · simp [startAction, hem, pm2FallbackLogged]
      · simp only [startAction, hem]
        simp only [if_true, List.mem_cons]
        intro l hl
        rcases hl with rfl | hl
        · simp
        · exact hno l hl
      · simp [startAction, hem]
        by_cases h1 : truthy (getConfig w.cfg "server_pid") <;>
          by_cases h2 : pidLive (getConfig w.cfg "server_pid") w.live <;>
            simp [startNativeBackground, h1, h2]
  | closed code =>
      by_cases hc : code = 0
      · subst hc
        refine ⟨?_, ?_, ?_, ?_⟩
        · simp [startAction, hem]
        · simp [startAction, hem, pm2FallbackLogged]
        · simp [startAction, hem]
        · simp [startAction, hem]
      · refine ⟨?_, ?_, ?_, ?_⟩
        · simp [startAction, hem, hc]
        · constructor
          · intro _
            exact Or.inr ⟨code, rfl, hc⟩
          · intro _
            simp [startAction, hem, hc, pm2FallbackLogged]
        · simp only [startAction, hem]
          simp only [if_true, hc, if_false, List.mem_cons]
          intro l hl
          rcases hl with rfl | hl
          · simp
          · exact hno l hl
        · simp [startAction, hem, hc]
          by_cases h1 : truthy (getConfig w.cfg "server_pid") <;>
            by_cases h2 : pidLive (getConfig w.cfg "server_pid") w.live <;>
              simp [startNativeBackground, h1, h2]

/-- A concrete world with all mandatory keys set, for witnesses. -/
def okWorld : World :=
  ⟨⟨[], [("secret_key", .scalar (.vStr "s")), ("working_dir", .scalar (.vStr "/w")),
    ("deployment_command", .scalar (.vStr "make"))], []⟩, []⟩

/-- Witness for C5: valid config, PM2 exits 2, the fallback is announced
(and only because the exit code is non-zero), nothing logs at error
level, and the action does not exit non-zero. -/
theorem c5_pm2_first_native_fallback_witness :
    validateMandatoryConfig okWorld.cfg = [] ∧
    ((startAction okWorld none (.closed 2) 7 "t").events.head? = some .pm2Attempt ∧
      (pm2FallbackLogged (startAction okWorld none (.closed 2) 7 "t") ↔
        ((.closed 2 : Pm2Spawn) = .errorEvent ∨
          ∃ c, (.closed 2 : Pm2Spawn) = .closed c ∧ c ≠ 0)) ∧
      (∀ l ∈ (startAction okWorld none (.closed 2) 7 "t").logs, l.level ≠ .error) ∧
      (startAction okWorld none (.closed 2) 7 "t").exitCode = none) :=
  ⟨by decide, c5_pm2_first_native_fallback okWorld none (.closed 2) 7 "t" (by decide)⟩

/-! ## C6: status in native mode -/

/-- C6: with the PM2 probe failed (non-zero `pm2 describe` exit), native
`status` reports not-running when no pid is recorded, reports running and
leaves all state unchanged when the recorded pid is alive, and on a stale
recorded pid reports not-running, clears the persisted pid and raises no
error. -/
theorem c6_status_native_probe (w : World) (pm2code : Int) (now : String)
    (h : pm2code ≠ 0) :
    (truthy (getConfig w.cfg "server_pid") = false →
        statusAction w pm2code now =
          ⟨w, none, [⟨.info, "Server is NOT running."⟩], [.pm2Attempt]⟩) ∧
    (truthy (getConfig w.cfg "server_pid") = true →
      pidLive (getConfig w.cfg "server_pid") w.live = true →
        statusAction w pm2code now =
          ⟨w, none, [⟨.success, "Server is RUNNING (PID " ++
            svDisplay (getConfig w.cfg "server_pid") ++ ")"⟩], [.pm2Attempt]⟩) ∧
    (truthy (getConfig w.cfg "server_pid") = true →
      pidLive (getConfig w.cfg "server_pid") w.live = false →
        (statusAction w pm2code now).logs =
          [⟨.warn, "Server is NOT running (Stale PID " ++
            svDisplay (getConfig w.cfg "server_pid") ++ " found)."⟩] ∧
        getConfig (statusAction w pm2code now).world.cfg "server_pid" = .scalar .vNull ∧
        (statusAction w pm2code now).exitCode = none ∧
        ∀ l ∈ (statusAction w pm2code now).logs, l.level ≠ .error) := by
  refine ⟨?_, ?_, ?_⟩
  · intro h1
    simp [statusAction, h, h1]
  · intro h1 h2
    simp [statusAction, h, h1, h2]
  · intro h1 h2
    refine ⟨?_, ?_, ?_, ?_⟩
    · simp [statusAction, h, h1, h2]
    · have : (statusAction w pm2code now).world.cfg =
          setConfig w.cfg "server_pid" (.scalar .vNull) now := by
        simp [statusAction, h, h1, h2]
      rw [this]
      exact getConfig_setConfig_of_envNone _ _ (envOverride_server_pid w.cfg) (by simp)
    · simp [statusAction, h, h1, h2]
    · simp [statusAction, h, h1, h2]

/-- Witness for C6 at a stale recorded pid (5 recorded, nothing live):
status warns, clears the pid, exits normally, logs no error. -/
theorem c6_status_native_probe_witness :
    (1 : Int) ≠ 0 ∧
    truthy (getConfig c1World.cfg "server_pid") = true ∧
    pidLive (getConfig c1World.cfg "server_pid") c1World.live = false ∧
    ((statusAction c1World 1 "t").logs =
        [⟨.warn, "Server is NOT running (Stale PID " ++
          svDisplay (getConfig c1World.cfg "server_pid") ++ " found)."⟩] ∧
      getConfig (statusAction c1World 1 "t").world.cfg "server_pid" = .scalar .vNull ∧
      (statusAction c1World 1 "t").exitCode = none ∧
      ∀ l ∈ (statusAction c1World 1 "t").logs, l.level ≠ .error) :=
  ⟨by decide, by decide, by decide,
   (c6_status_native_probe c1World 1 "t" (by decide)).2.2 (by decide) (by decide)⟩

/-! ## C7: stop clears the pid on success and on ESRCH -/

/-- C7: with the PM2 stop failed (non-zero exit) and a numeric pid
recorded, a missing process (ESRCH) makes `stop` clear the persisted pid
and finish without any error; a live process is signalled and the
persisted pid is cleared as well. -/
theorem c7_stop_native_clears (w : World) (pm2code : Int) (now : String) (n : Int)
    (h : pm2code ≠ 0) (hrec : getConfig w.cfg "server_pid" = .scalar (.vNum n))
    (hn : n ≠ 0) :
    (w.live.contains n = false →
        stopAction w pm2code now =
          ⟨⟨setConfig w.cfg "server_pid" (.scalar .vNull) now, w.live⟩, none,
           [⟨.warn, "Process " ++ toString n ++ " not found. Cleaning up config."⟩],
           [.pm2Attempt, .configWrite "server_pid" (.scalar .vNull)]⟩ ∧
        getConfig (stopAction w pm2code now).world.cfg "server_pid" = .scalar .vNull ∧
        (stopAction w pm2code now).exitCode = none ∧
        ∀ l ∈ (stopAction w pm2code now).logs, l.level ≠ .error) ∧
    (w.live.contains n = true →
        getConfig (stopAction w pm2code now).world.cfg "server_pid" = .scalar .vNull ∧
        (stopAction w pm2code now).world.live = w.live.erase n ∧
        (stopAction w pm2code now).exitCode = none ∧
        ∀ l ∈ (stopAction w pm2code now).logs, l.level ≠ .error) := by
  have h1 : truthy (getConfig w.cfg "server_pid") = true := by
    rw [hrec]; simp [truthy, jvalTruthy, hn]
  constructor
  · intro hdead
    have hdead2 : n ∉ w.live := by simpa using hdead
    refine ⟨?_, ?_, ?_, ?_⟩
    · simp [stopAction, h, h1, hrec, truthy, jvalTruthy, hn, hdead2]
    · have : (stopAction w pm2code now).world.cfg =
          setConfig w.cfg "server_pid" (.scalar .vNull) now := by
        simp [stopAction, h, h1, hrec, truthy, jvalTruthy, hn, hdead2]
      rw [this]
      exact getConfig_setConfig_of_envNone _ _ (envOverride_server_pid w.cfg) (by simp)
    · simp [stopAction, h, h1, hrec, truthy, jvalTruthy, hn, hdead2]
    · simp [stopAction, h, h1, hrec, truthy, jvalTruthy, hn, hdead2]
  · intro hlive
    have hlive2 : n ∈ w.live := by simpa using hlive
    refine ⟨?_, ?_, ?_, ?_⟩
    · have : (stopAction w pm2code now).world.cfg =
          setConfig w.cfg "server_pid" (.scalar .vNull) now := by
        simp [stopAction, h, h1, hrec, truthy, jvalTruthy, hn, hlive2]
      rw [this]
      exact getConfig_setConfig_of_envNone _ _ (envOverride_server_pid w.cfg) (by simp)
    · simp [stopAction, h, h1, hrec, truthy, jvalTruthy, hn, hlive2]
    · simp [stopAction, h, h1, hrec, truthy, jvalTruthy, hn, hlive2]
    · simp [stopAction, h, h1, hrec, truthy, jvalTruthy, hn, hlive2]

/-- Witness for C7 at a stale recorded pid (5 recorded, nothing live):
stop warns, clears the pid, exits normally, logs no error. -/
theorem c7_stop_native_clears_witness :
    (1 : Int) ≠ 0 ∧ getConfig c1World.cfg "server_pid" = .scalar (.vNum 5) ∧
    c1World.live.contains 5 = false ∧
    (stopAction c1World 1 "t" =
        ⟨⟨setConfig c1World.cfg "server_pid" (.scalar .vNull) "t", c1World.live⟩, none,
         [⟨.warn, "Process " ++ toString (5 : Int) ++ " not found. Cleaning up config."⟩],
         [.pm2Attempt, .configWrite "server_pid" (.scalar .vNull)]⟩ ∧
      getConfig (stopAction c1World 1 "t").world.cfg "server_pid" = .scalar .vNull ∧
      (stopAction c1World 1 "t").exitCode = none ∧
      ∀ l ∈ (stopAction c1World 1 "t").logs, l.level ≠ .error) :=
  ⟨by decide, by decide, by decide,
   (c7_stop_native_clears c1World 1 "t" 5 (by decide) (by decide) (by decide)).1 (by decide)⟩

/-! ## C8: exit codes of the CLI failure paths -/

theorem startNativeBackground_exitCode (w : World) (optPort : Option String)
    (childPid : Int) (now : String) :
    (startNativeBackground w optPort childPid now).exitCode = none := by
  by_cases h1 : truthy (getConfig w.cfg "server_pid") <;>
    by_cases h2 : pidLive (getConfig w.cfg "server_pid") w.live <;>
      simp [startNativeBackground, h1, h2]

/-- C8: each of `start`, `listen`, `init` and `deploy` calls
`process.exit(1)` exactly on its validation, prompt or trigger failure
path, never exits with another explicit code, and every exit-1 path logs
an error-level message. -/
theorem c8_exit_codes (w : World) (optPort : Option String) (pm2 : Pm2Spawn)
    (childPid : Int) (now : String) (ty : String) (ca : Except String ClientAnswers)
    (sa : Except String ServerAnswers) (generated : String) (name : String)
    (trig : Except String Unit) :
    (((startAction w optPort pm2 childPid now).exitCode = some 1 ↔
        validateMandatoryConfig w.cfg ≠ []) ∧
      ((startAction w optPort pm2 childPid now).exitCode = some 1 ∨
        (startAction w optPort pm2 childPid now).exitCode = none) ∧
      ((startAction w optPort pm2 childPid now).exitCode = some 1 →
        ∃ m, (⟨.error, m⟩ : LogMsg) ∈ (startAction w optPort pm2 childPid now).logs)) ∧
    (((listenAction w optPort).exitCode = some 1 ↔ validateMandatoryConfig w.cfg ≠ []) ∧
      ((listenAction w optPort).exitCode = some 1 ∨ (listenAction w optPort).exitCode = none) ∧
      ((listenAction w optPort).exitCode = some 1 →
        ∃ m, (⟨.error, m⟩ : LogMsg) ∈ (listenAction w optPort).logs)) ∧
    (((initAction w ty ca sa generated now).exitCode = some 1 ↔
        ((ty ≠ "client" ∧ ty ≠ "server") ∨ (ty = "client" ∧ ∃ m, ca = .error m) ∨
          (ty = "server" ∧ ∃ m, sa = .error m))) ∧
      ((initAction w ty ca sa generated now).exitCode = some 1 ∨
        (initAction w ty ca sa generated now).exitCode = none) ∧
      ((initAction w ty ca sa generated now).exitCode = some 1 →
        ∃ m, (⟨.error, m⟩ : LogMsg) ∈ (initAction w ty ca sa generated now).logs)) ∧
    (((deployAction w name trig).exitCode = some 1 ↔
        (truthy (deployUrl w.cfg name) = false ∨ truthy (deploySecret w.cfg name) = false ∨
          ∃ m, trig = .error m)) ∧
      ((deployAction w name trig).exitCode = some 1 ∨
        (deployAction w name trig).exitCode = none) ∧
      ((deployAction w name trig).exitCode = some 1 →
        ∃ m, (⟨.error, m⟩ : LogMsg) ∈ (deployAction w name trig).logs)) := by
  have hstartExit : (startAction w optPort pm2 childPid now).exitCode =
      if (validateMandatoryConfig w.cfg).isEmpty then none else some 1 := by
    by_cases hm : (validateMandatoryConfig w.cfg).isEmpty = true
    · cases pm2 with
      | errorEvent => simp [startAction, hm, startNativeBackground_exitCode]
      | closed code =>
          by_cases hc : code = 0 <;>
            simp [startAction, hm, hc, startNativeBackground_exitCode]
    · have hm2 : (validateMandatoryConfig w.cfg).isEmpty = false := by simpa using hm
      simp [startAction, hm2]
  refine ⟨⟨?_, ?_, ?_⟩, ⟨?_, ?_, ?_⟩, ⟨?_, ?_, ?_⟩, ⟨?_, ?_, ?_⟩⟩
  · rw [hstartExit]
    by_cases hm : validateMandatoryConfig w.cfg = [] <;> simp [hm]
  · rw [hstartExit]
    by_cases hm : validateMandatoryConfig w.cfg = [] <;> simp [hm]
  · rw [hstartExit]
    by_cases hm : validateMandatoryConfig w.cfg = []
    · simp [hm]
    · have hm2 : (validateMandatoryConfig w.cfg).isEmpty = false := by
        cases hval : validateMandatoryConfig w.cfg with
        | nil => exact absurd hval hm
        | cons a t => simp
      simp [hm2, startAction]
  · by_cases hm : validateMandatoryConfig w.cfg = []
    · have hm2 : (validateMandatoryConfig w.cfg).isEmpty = true := by simp [hm]
      simp [listenAction, hm2, hm]
    · have hm2 : (validateMandatoryConfig w.cfg).isEmpty = false := by
        cases hval : validateMandatoryConfig w.cfg with
        | nil => exact absurd hval hm
        | cons a t => simp
      simp [listenAction, hm2, hm]
  · by_cases hm : validateMandatoryConfig w.cfg = []
    · have hm2 : (validateMandatoryConfig w.cfg).isEmpty = true := by simp [hm]
      simp [listenAction, hm2]
    · have hm2 : (validateMandatoryConfig w.cfg).isEmpty = false := by
        cases hval : validateMandatoryConfig w.cfg with
        | nil => exact absurd hval hm
        | cons a t => simp
      simp [listenAction, hm2]
  · by_cases hm : validateMandatoryConfig w.cfg = []
    · have hm2 : (validateMandatoryConfig w.cfg).isEmpty = true := by simp [hm]
      simp [listenAction, hm2]
    · have hm2 : (validateMandatoryConfig w.cfg).isEmpty = false := by
        cases hval : validateMandatoryConfig w.cfg with
        | nil => exact absurd hval hm
        | cons a t => simp
      simp [listenAction, hm2]
  · by_cases h1 : ty = "client"
    · subst h1
      cases ca <;> simp [initAction]
    · by_cases h2 : ty = "server"
      · subst h2
        cases sa <;> simp [initAction]
      · simp [initAction, h1, h2]
  · by_cases h1 : ty = "client"
    · subst h1
      cases ca <;> simp [initAction]
    · by_cases h2 : ty = "server"
      · subst h2
        cases sa <;> simp [initAction]
      · simp [initAction, h1, h2]
  · by_cases h1 : ty = "client"
    · subst h1
      cases ca <;> simp [initAction]
    · by_cases h2 : ty = "server"
      · subst h2
        cases sa <;> simp [initAction]
      · simp [initAction, h1, h2]
  · by_cases hu : truthy (deployUrl w.cfg name) = true
    · by_cases hs : truthy (deploySecret w.cfg name) = true
      · cases trig <;> simp [deployAction, hu, hs]
      · have hs2 : truthy (deploySecret w.cfg name) = false := by simpa using hs
        simp [deployAction, hu, hs2]
    · have hu2 : truthy (deployUrl w.cfg name) = false := by simpa using hu
      simp [deployAction, hu2]
  · by_cases hu : truthy (deployUrl w.cfg name) = true
    · by_cases hs : truthy (deploySecret w.cfg name) = true
      · cases trig <;> simp [deployAction, hu, hs]
      · have hs2 : truthy (deploySecret w.cfg name) = false := by simpa using hs
        simp [deployAction, hu, hs2]
    · have hu2 : truthy (deployUrl w.cfg name) = false := by simpa using hu
      simp [deployAction, hu2]
  · by_cases hu : truthy (deployUrl w.cfg name) = true
    · by_cases hs : truthy (deploySecret w.cfg name) = true
      · cases trig <;> simp [deployAction, hu, hs]
      · have hs2 : truthy (deploySecret w.cfg name) = false := by simpa using hs
        simp [deployAction, hu, hs2]
    · have hu2 : truthy (deployUrl w.cfg name) = false := by simpa using hu
      simp [deployAction, hu2]

/-- Witness for C8 at concrete inputs: empty config makes `start` and
`listen` exit 1, an invalid `init` type exits 1, and `deploy` against an
unknown profile with no globals exits 1. -/
theorem c8_exit_codes_witness :
    (startAction ⟨⟨[], [], []⟩, []⟩ none (.closed 0) 7 "t").exitCode = some 1 ∧
    (listenAction ⟨⟨[], [], []⟩, []⟩ none).exitCode = some 1 ∧
    (initAction ⟨⟨[], [], []⟩, []⟩ "bogus" (.ok ⟨"n", "u", "s"⟩)
      (.ok ⟨"3000", "/w", "", "k"⟩) "g" "t").exitCode = some 1 ∧
    (deployAction ⟨⟨[], [], []⟩, []⟩ "prod" (.error "boom")).exitCode = some 1 :=
  ⟨(c8_exit_codes ⟨⟨[], [], []⟩, []⟩ none (.closed 0) 7 "t" "bogus" (.ok ⟨"n", "u", "s"⟩)
      (.ok ⟨"3000", "/w", "", "k"⟩) "g" "prod" (.error "boom")).1.1.mpr (by decide),
   (c8_exit_codes ⟨⟨[], [], []⟩, []⟩ none (.closed 0) 7 "t" "bogus" (.ok ⟨"n", "u", "s"⟩)
      (.ok ⟨"3000", "/w", "", "k"⟩) "g" "prod" (.error "boom")).2.1.1.mpr (by decide),
   (c8_exit_codes ⟨⟨[], [], []⟩, []⟩ none (.closed 0) 7 "t" "bogus" (.ok ⟨"n", "u", "s"⟩)
      (.ok ⟨"3000", "/w", "", "k"⟩) "g" "prod" (.error "boom")).2.2.1.1.mpr
      (Or.inl (by decide)),
   (c8_exit_codes ⟨⟨[], [], []⟩, []⟩ none (.closed 0) 7 "t" "bogus" (.ok ⟨"n", "u", "s"⟩)
      (.ok ⟨"3000", "/w", "", "k"⟩) "g" "prod" (.error "boom")).2.2.2.1.mpr
      (Or.inl (by decide))⟩

/-! ## C9: deploy falls back to the global url and secret -/

/-- C9: when the requested name is not a key of the resolved profile map,
`deploy` resolves the global `server_url` and `secret_key` (environment
fallback included), exits 1 exactly when one of those is falsy, and with
both set proceeds to the trigger with exactly those fallback values. -/
theorem c9_deploy_profile_fallback (w : World) (name : String)
    (h : lookupProfiles (jsOr (getConfig w.cfg "servers") (.profiles [])) name = none) :
    ((deployAction w name (.ok ())).exitCode = some 1 ↔
      (truthy (jsOr (getConfig w.cfg "server_url") (envJ w.cfg "SERVER_URL")) = false ∨
        truthy (jsOr (getConfig w.cfg "secret_key") (envJ w.cfg "SECRET_KEY")) = false)) ∧
    (truthy (jsOr (getConfig w.cfg "server_url") (envJ w.cfg "SERVER_URL")) = true →
      truthy (jsOr (getConfig w.cfg "secret_key") (envJ w.cfg "SECRET_KEY")) = true →
        deployAction w name (.ok ()) =
          ⟨w, none, [],
           [.triggerAttempt (jsOr (getConfig w.cfg "server_url") (envJ w.cfg "SERVER_URL"))
             (jsOr (getConfig w.cfg "secret_key") (envJ w.cfg "SECRET_KEY"))]⟩) := by
  have hu : deployUrl w.cfg name =
      jsOr (getConfig w.cfg "server_url") (envJ w.cfg "SERVER_URL") := by
    simp [deployUrl, h]
  have hs : deploySecret w.cfg name =
      jsOr (getConfig w.cfg "secret_key") (envJ w.cfg "SECRET_KEY") := by
    simp [deploySecret, h]
  constructor
  · cases hb1 : truthy (jsOr (getConfig w.cfg "server_url") (envJ w.cfg "SERVER_URL")) <;>
      cases hb2 : truthy (jsOr (getConfig w.cfg "secret_key") (envJ w.cfg "SECRET_KEY")) <;>
        simp [deployAction, hu, hs, hb1, hb2]
  · intro h1 h2
    simp [deployAction, hu, hs, h1, h2]

/-- A concrete config with no profiles but global url and secret set. -/
def c9World : World :=
  ⟨⟨[], [("server_url", .scalar (.vStr "http://h:3000")),
    ("secret_key", .scalar (.vStr "s"))], []⟩, []⟩

/-- Witness for C9: unknown profile name, global url and secret present,
deploy does not exit 1 and triggers with the global values. -/
theorem c9_deploy_profile_fallback_witness :
    lookupProfiles (jsOr (getConfig c9World.cfg "servers") (.profiles [])) "prod" = none ∧
    ¬((deployAction c9World "prod" (.ok ())).exitCode = some 1) ∧
    deployAction c9World "prod" (.ok ()) =
      ⟨c9World, none, [],
       [.triggerAttempt (jsOr (getConfig c9World.cfg "server_url") (envJ c9World.cfg "SERVER_URL"))
         (jsOr (getConfig c9World.cfg "secret_key") (envJ c9World.cfg "SECRET_KEY"))]⟩ :=
  ⟨by decide,
   fun hc => by
     have := (c9_deploy_profile_fallback c9World "prod" (by decide)).1.mp hc
     revert this
     decide,
   (c9_deploy_profile_fallback c9World "prod" (by decide)).2 (by decide) (by decide)⟩

/-! ## C10: client config output masks secrets -/

/-- Two concrete configs whose single profile differs only in the secret
string (empty versus non-empty). -/
def c10A : ConfigState :=
  ⟨[], [("servers", .profiles [("prod", ⟨.vStr "https://h", .vStr ""⟩)])], []⟩

/-- As `c10A` with the secret string `"x"` instead of `""`. -/
def c10B : ConfigState :=
  ⟨[], [("servers", .profiles [("prod", ⟨.vStr "https://h", .vStr "x"⟩)])], []⟩

/-- Counterexample to C10 as stated: the two configs differ only in the
secret strings of the one profile, yet the outputs differ (the row shows
`Not set` for the empty secret and the mask for the non-empty one). -/
theorem c10_counterexample :
    (storedServers c10A).map Prod.fst = (storedServers c10B).map Prod.fst ∧
    (storedServers c10A).map (fun p => p.2.url) =
      (storedServers c10B).map (fun p => p.2.url) ∧
    getClientConfig c10A ≠ getClientConfig c10B := by decide

theorem clientRowOf_map_congr {l₁ l₂ : List (String × ServerProfile)}
    (h : List.Forall₂ (fun a b => a.1 = b.1 ∧ a.2.url = b.2.url ∧
        jvalTruthy a.2.secret = jvalTruthy b.2.secret) l₁ l₂) :
    l₁.map clientRowOf = l₂.map clientRowOf := by
  induction h with
  | nil => rfl
  | cons hab htail ih =>
      obtain ⟨h1, h2, h3⟩ := hab
      simp only [List.map_cons, ih]
      congr 1
      unfold clientRowOf
      rw [h1, h2, h3]

/-- C10 (amended): every row of `getClientConfig` shows `"********"` or
`"Not set"` in its secret field, never the secret itself; and two configs
whose profile maps agree on names, urls and on which secrets are set
(truthy) produce identical output — in particular configs differing only
in non-empty secret strings do. -/
theorem c10_masked_output (st1 st2 : ConfigState)
    (h : List.Forall₂ (fun a b => a.1 = b.1 ∧ a.2.url = b.2.url ∧
        jvalTruthy a.2.secret = jvalTruthy b.2.secret)
      (storedServers st1) (storedServers st2)) :
    (∀ row ∈ getClientConfig st1,
      row.secret_key = "********" ∨ row.secret_key = "Not set") ∧
    getClientConfig st1 = getClientConfig st2 := by
  constructor
  · intro row hrow
    rw [getClientConfig, List.mem_map] at hrow
    obtain ⟨p, _, rfl⟩ := hrow
    by_cases hsec : jvalTruthy p.2.secret <;> simp [clientRowOf, hsec]
  · rw [getClientConfig, getClientConfig]
    exact clientRowOf_map_congr h

/-- As `c10A` but with the secrets `"a"` and `"b"`: both set, differing
only in the secret string. -/
def c10W1 : ConfigState :=
  ⟨[], [("servers", .profiles [("prod", ⟨.vStr "https://h", .vStr "a"⟩)])], []⟩

/-- See `c10W1`. -/
def c10W2 : ConfigState :=
  ⟨[], [("servers", .profiles [("prod", ⟨.vStr "https://h", .vStr "b"⟩)])], []⟩

/-- Witness for the amended C10: with both secrets non-empty the rows are
masked and the outputs coincide. -/
theorem c10_masked_output_witness :
    (∀ row ∈ getClientConfig c10W1,
      row.secret_key = "********" ∨ row.secret_key = "Not set") ∧
    getClientConfig c10W1 = getClientConfig c10W2 :=
  c10_masked_output c10W1 c10W2
    (List.Forall₂.cons ⟨rfl, rfl, by decide⟩ List.Forall₂.nil)
